import Mathlib

set_option autoImplicit false

namespace RhythmPad

/-!
Shallow embedding of the rhythm-remote-pad relay server
(`src/server/server.js`) and of the client session manager
(`src/src/hooks/useRokuSocket.ts`, with the variant found in
`src/unnamed/part_002`).  Network effects are made explicit: the
downstream HTTP outcome is an oracle parameter, and each handler returns
the mutated state together with the list of effects it emits (HTTP
requests issued, messages sent back on the originating connection).
-/

/-! ## Association-list helpers (model of the JS `Map`) -/

/-- Lookup in an association list: first entry whose key matches. -/
def lookupA {α β : Type} [DecidableEq α] : List (α × β) → α → Option β
  | [], _ => none
  | (k, v) :: rest, a => if k = a then some v else lookupA rest a

/-- `Map.set`: replace the first entry with the given key, or append. -/
def setA {α β : Type} [DecidableEq α] : List (α × β) → α → β → List (α × β)
  | [], a, b => [(a, b)]
  | (k, v) :: rest, a, b =>
    if k = a then (a, b) :: rest else (k, v) :: setA rest a b

/-- `Map.delete`: remove the first entry with the given key. -/
def eraseA {α β : Type} [DecidableEq α] : List (α × β) → α → List (α × β)
  | [], _ => []
  | (k, v) :: rest, a => if k = a then rest else (k, v) :: eraseA rest a

/-! ## Server data model (`src/server/server.js`) -/

/-- `VALID_ACTIONS` (server.js line 64). -/
def VALID_ACTIONS : List String := ["keydown", "keyup", "keypress"]

/-- `VALID_KEYS` (server.js lines 65-69). -/
def VALID_KEYS : List String :=
  ["Left", "Right", "Up", "Down",
   "Select", "Back", "Home", "Rev", "Fwd",
   "Play", "InstantReplay", "Info"]

/-- The fields of a parsed inbound JSON message that the handler reads
(`msg.type`, `msg.ip`, `msg.action`, `msg.key`); `none` models a missing
(undefined) field. -/
structure Msg where
  type? : Option String
  ip : Option String
  action : Option String
  key : Option String
deriving DecidableEq, Repr

/-- JavaScript truthiness of an optional string field: present and
non-empty (`msg.ip` in `msg.type === "set-roku-ip" && msg.ip`). -/
def jsTruthy : Option String → Bool
  | none => false
  | some s => s != ""

/-- `VALID_ACTIONS.has(action)`; `Set.has(undefined)` is false. -/
def actionOk : Option String → Bool
  | none => false
  | some a => decide (a ∈ VALID_ACTIONS)

/-- `VALID_KEYS.has(key)`; `Set.has(undefined)` is false. -/
def keyOk : Option String → Bool
  | none => false
  | some k => decide (k ∈ VALID_KEYS)

/-- The HTTP request record built by `sendToRoku` (server.js lines
85-95), together with whether `req.destroy()` was called on it. -/
structure HttpReq where
  hostname : String
  port : Nat
  path : String
  method : String
  timeoutMs : Nat
  destroyed : Bool
deriving DecidableEq, Repr

/-- Oracle for the outcome of one downstream HTTP request: the device
answers with some status code, the request times out, or a
transport-level error fires with the given message. -/
inductive NetOutcome where
  | status (code : Nat)
  | timedOut
  | transportError (m : String)
deriving DecidableEq, Repr

/-- Per-socket bookkeeping: the originating client IP captured at
connection time and the WebSocket `readyState`
(0 CONNECTING, 1 OPEN, 2 CLOSING, 3 CLOSED). -/
structure SockInfo where
  clientIp : String
  readyState : Nat
deriving DecidableEq, Repr

/-- The relay server's mutable state: `activeRokuIp`, the
`clientsByIp` registry (client IP to socket id), and the states of the
socket objects themselves. -/
structure ServerState where
  activeRokuIp : String
  clientsByIp : List (String × Nat)
  socks : List (Nat × SockInfo)
deriving DecidableEq, Repr

/-- Message sent back on a WebSocket connection. -/
inductive OutMsg where
  | config (rokuIp : String) (serverTime : Nat)
  | configAck (rokuIp : String)
  | errorMsg (message : String)
deriving DecidableEq, Repr

/-- Observable effect of one handler run. -/
inductive Effect where
  | request (req : HttpReq)
  | send (out : OutMsg)
deriving DecidableEq, Repr

/-- `sendToRoku(action, key)` (server.js lines 75-116): with no target
configured it rejects immediately and issues no request; otherwise it
issues a POST to `/action/key` on port 8060 with a 500ms timeout whose
outcome is given by the oracle.  Returns the request issued (if any)
and the promise resolution. -/
def sendToRoku (activeRokuIp action key : String) (net : NetOutcome) :
    Option HttpReq × Except String Nat :=
  if activeRokuIp = "" then
    (none, Except.error "No Roku IP configured")
  else
    let req : HttpReq :=
      { hostname := activeRokuIp, port := 8060,
        path := "/" ++ action ++ "/" ++ key, method := "POST",
        timeoutMs := 500, destroyed := false }
    match net with
    | NetOutcome.status code => (some req, Except.ok code)
    | NetOutcome.timedOut =>
        (some { req with destroyed := true },
         Except.error "Roku request timed out")
    | NetOutcome.transportError m => (some req, Except.error m)

/-- `ws.on("message")` (server.js lines 140-186) on one already-parsed
message; `none` models a JSON parse failure (dropped with no effect). -/
def handleMessage (s : ServerState) (m : Option Msg) (net : NetOutcome) :
    ServerState × List Effect :=
  match m with
  | none => (s, [])
  | some msg =>
    if msg.type? = some "set-roku-ip" ∧ jsTruthy msg.ip = true then
      ({ s with activeRokuIp := msg.ip.getD "" },
       [Effect.send (OutMsg.configAck (msg.ip.getD ""))])
    else if actionOk msg.action = false then (s, [])
    else if keyOk msg.key = false then (s, [])
    else
      let r := sendToRoku s.activeRokuIp (msg.action.getD "") (msg.key.getD "") net
      let reqEffs : List Effect :=
        match r.1 with
        | some req => [Effect.request req]
        | none => []
      match r.2 with
      | Except.ok _ => (s, reqEffs)
      | Except.error e =>
          (s, reqEffs ++ [Effect.send (OutMsg.errorMsg ("Roku unreachable: " ++ e))])

/-- The stale-connection eviction at the top of `wss.on("connection")`
(server.js lines 122-126): if a connection is registered for the same
client IP and is still CONNECTING or OPEN, call `close()` on it. -/
def closeStale (s : ServerState) (clientIp : String) : ServerState :=
  match lookupA s.clientsByIp clientIp with
  | some w0 =>
    match lookupA s.socks w0 with
    | some info =>
      if info.readyState ≤ 1 then
        { s with socks := setA s.socks w0 { info with readyState := 2 } }
      else s
    | none => s
  | none => s

/-- `wss.on("connection")` (server.js lines 118-138): close any prior
live (readyState CONNECTING or OPEN) connection registered for the same
client IP, register the new socket, and send the config snapshot. -/
def acceptConnection (s : ServerState) (clientIp : String) (w : Nat) (now : Nat) :
    ServerState × List Effect :=
  let s1 := closeStale s clientIp
  ({ s1 with
      clientsByIp := setA s1.clientsByIp clientIp w,
      socks := setA s1.socks w { clientIp := clientIp, readyState := 1 } },
   [Effect.send (OutMsg.config s.activeRokuIp now)])

/-- `ws.on("close")` (server.js lines 188-194): the socket is now
CLOSED; its registry entry is removed only if it still points at the
closing socket. -/
def handleClose (s : ServerState) (clientIp : String) (w : Nat) : ServerState :=
  let socks1 :=
    match lookupA s.socks w with
    | some info => setA s.socks w { info with readyState := 3 }
    | none => s.socks
  let reg1 :=
    if lookupA s.clientsByIp clientIp = some w then eraseA s.clientsByIp clientIp
    else s.clientsByIp
  { s with clientsByIp := reg1, socks := socks1 }

/-! ## Connection-lifecycle traces (for the registry invariant) -/

/-- A connection-lifecycle event observed by the server. -/
inductive ServerEvt where
  | accept (clientIp : String) (w : Nat)
  | closeEvt (clientIp : String) (w : Nat)
deriving DecidableEq, Repr

/-- State transition of one lifecycle event (effects discarded). -/
def stepEv (s : ServerState) : ServerEvt → ServerState
  | ServerEvt.accept ip w => (acceptConnection s ip w 0).1
  | ServerEvt.closeEvt ip w => handleClose s ip w

/-- Run a list of lifecycle events. -/
def runEvts (s : ServerState) : List ServerEvt → ServerState
  | [] => s
  | e :: rest => runEvts (stepEv s e) rest

/-- Registry invariant: every live socket (readyState ≤ 1) is the one
registered for its client IP.  Since the registry is a map, this gives
at most one live connection per originating identity. -/
def regInv (s : ServerState) : Prop :=
  ∀ p ∈ s.socks, p.2.readyState ≤ 1 →
    lookupA s.clientsByIp p.2.clientIp = some p.1

/-- Full server-state invariant: both maps have no duplicate keys and
the registry invariant holds. -/
def goodState (s : ServerState) : Prop :=
  (s.clientsByIp.map Prod.fst).Nodup ∧ (s.socks.map Prod.fst).Nodup ∧ regInv s

instance (s : ServerState) : Decidable (regInv s) := by
  unfold regInv
  infer_instance

instance (s : ServerState) : Decidable (goodState s) := by
  unfold goodState
  infer_instance

/-! ## Client session manager (`src/src/hooks/useRokuSocket.ts`) -/

/-- Client-side view of the underlying WebSocket (readyState 1 = OPEN). -/
structure ClientSock where
  readyState : Nat
deriving DecidableEq, Repr

/-- The object serialized by `sendKey`: exactly the two fields
`{ action, key }`. -/
structure SentPayload where
  action : String
  key : String
deriving DecidableEq, Repr

/-- `sendKey` (useRokuSocket.ts lines 142-157): drop if the socket ref
is null or not OPEN, otherwise transmit `{ action, key }` unchanged. -/
def sendKey (wsRef : Option ClientSock) (key action : String) : List SentPayload :=
  match wsRef with
  | none => []
  | some ws => if ws.readyState = 1 then [{ action := action, key := key }] else []

/-- `INITIAL_RECONNECT_DELAY` (useRokuSocket.ts line 40). -/
def INITIAL_RECONNECT_DELAY : ℚ := 500

/-- `MAX_RECONNECT_DELAY` (useRokuSocket.ts line 41). -/
def MAX_RECONNECT_DELAY : ℚ := 5000

/-- `RECONNECT_BACKOFF` (useRokuSocket.ts line 42). -/
def RECONNECT_BACKOFF : ℚ := 3 / 2

/-- The delay update performed when a scheduled reconnect timer fires
(useRokuSocket.ts lines 123-128). -/
def bumpDelay (d : ℚ) : ℚ := min (d * RECONNECT_BACKOFF) MAX_RECONNECT_DELAY

/-- Backoff-relevant events of the session manager. -/
inductive SessionEvt where
  | opened
  | closedDrop
  | timerFired
  | manualReconnect
deriving DecidableEq, Repr

/-- The backoff-relevant part of the hook state. -/
structure SessState where
  delay : ℚ
deriving DecidableEq, Repr

/-- Delay dynamics of the hook: `onopen` and `reconnect()` reset the
delay to the floor; `onclose` schedules the reconnect with the current
delay (leaving it unchanged until the timer fires); the timer callback
multiplies the delay by the backoff factor, capped at the ceiling. -/
def sessStep (s : SessState) : SessionEvt → SessState
  | SessionEvt.opened => { delay := INITIAL_RECONNECT_DELAY }
  | SessionEvt.closedDrop => s
  | SessionEvt.timerFired => { delay := bumpDelay s.delay }
  | SessionEvt.manualReconnect => { delay := INITIAL_RECONNECT_DELAY }

/-- One failure cycle: an unintentional close followed by its
scheduled timer firing. -/
def failCycle (s : SessState) : SessState :=
  sessStep (sessStep s SessionEvt.closedDrop) SessionEvt.timerFired

/-- Session state when the Nth consecutive failure (0-indexed) is about
to be scheduled, starting from a fresh (post-success) state. -/
def attemptState : Nat → SessState
  | 0 => { delay := INITIAL_RECONNECT_DELAY }
  | n + 1 => failCycle (attemptState n)

/-- The delay used to schedule the Nth reconnect attempt after N
consecutive failures with no intervening success or manual reconnect. -/
def nthAttemptDelay (n : Nat) : ℚ := (attemptState (n - 1)).delay

/-! ## The two `connect` variants (claim about duplicate connects) -/

/-- Connection status of the hook. -/
inductive ConnStat where
  | connecting
  | connected
  | disconnected
deriving DecidableEq, Repr

/-- State of the hook in `src/src/hooks/useRokuSocket.ts`: socket ids
stand for WebSocket objects, `nextId` counts allocations, `closedIds`
records sockets on which `close()` was called. -/
structure HookStateA where
  wsRef : Option Nat
  timer : Option Nat
  intentionalClose : Bool
  stat : ConnStat
  nextId : Nat
  closedIds : List Nat
deriving DecidableEq, Repr

/-- `connect` from `src/src/hooks/useRokuSocket.ts` lines 70-139: close
any existing socket, bail out on an empty URL, then allocate a new
WebSocket.  There is no in-flight guard and the pending reconnect timer
is not touched. -/
def connectA (serverUrl : String) (s : HookStateA) : HookStateA :=
  let s1 :=
    match s.wsRef with
    | some w => { s with intentionalClose := true, closedIds := w :: s.closedIds }
    | none => s
  if serverUrl = "" then s1
  else
    let s2 := { s1 with stat := ConnStat.connecting, intentionalClose := false }
    { s2 with wsRef := some s2.nextId, nextId := s2.nextId + 1 }

/-- State of the hook variant in `src/unnamed/part_002`, which adds the
`connectingRef` flag. -/
structure HookStateB where
  wsRef : Option Nat
  timer : Option Nat
  intentionalClose : Bool
  connectingFlag : Bool
  stat : ConnStat
  nextId : Nat
  closedIds : List Nat
deriving DecidableEq, Repr

/-- `connect` from `src/unnamed/part_002` lines 75-107: return at once
if an attempt is in flight; otherwise clear any pending reconnect
timer, close and discard any existing socket, bail out on an empty URL,
then allocate a new WebSocket and set the in-flight flag. -/
def connectB (serverUrl : String) (s : HookStateB) : HookStateB :=
  if s.connectingFlag then s
  else
    let s1 := { s with timer := none }
    let s2 :=
      match s1.wsRef with
      | some w =>
        { s1 with intentionalClose := true, closedIds := w :: s1.closedIds,
                  wsRef := none }
      | none => s1
    if serverUrl = "" then s2
    else
      { s2 with stat := ConnStat.connecting, intentionalClose := false,
                connectingFlag := true,
                wsRef := some s2.nextId, nextId := s2.nextId + 1 }

/-! ## Substring containment (for the error-message claims) -/

/-- `needle` occurs as a contiguous substring of `hay`. -/
def containsSub (needle hay : String) : Prop :=
  ∃ pre post : String, hay = pre ++ needle ++ post

/-! ## Concrete fixtures used by witnesses and counterexamples -/

/-- A server state with a configured target and empty registry. -/
def sWithIp : ServerState :=
  { activeRokuIp := "192.168.1.42", clientsByIp := [], socks := [] }

/-- A server state with no target configured. -/
def sNoIp : ServerState :=
  { activeRokuIp := "", clientsByIp := [], socks := [] }

/-- A server state with one live registered connection from client "A". -/
def sRegEx : ServerState :=
  { activeRokuIp := "", clientsByIp := [("A", 1)],
    socks := [(1, { clientIp := "A", readyState := 1 })] }

/-- A sample event trace: two connections from "A" in quick succession,
then both close events. -/
def evsEx : List ServerEvt :=
  [ServerEvt.accept "A" 0, ServerEvt.accept "A" 1,
   ServerEvt.closeEvt "A" 0, ServerEvt.closeEvt "A" 1]

/-- Hook state of the useRokuSocket.ts variant with an attempt in
flight (socket 0 connecting) and a pending reconnect timer. -/
def hookAEx : HookStateA :=
  { wsRef := some 0, timer := some 5, intentionalClose := false,
    stat := ConnStat.connecting, nextId := 1, closedIds := [] }

/-- Hook state of the part_002 variant with an attempt in flight. -/
def hookBEx : HookStateB :=
  { wsRef := some 0, timer := some 5, intentionalClose := false,
    connectingFlag := true, stat := ConnStat.connecting,
    nextId := 1, closedIds := [] }

/-- Hook state of the part_002 variant with no attempt in flight and a
pending reconnect timer. -/
def hookBEx2 : HookStateB :=
  { wsRef := some 0, timer := some 5, intentionalClose := false,
    connectingFlag := false, stat := ConnStat.disconnected,
    nextId := 1, closedIds := [] }

/-! ## Association-list lemmas -/

lemma lookupA_setA_self {α β : Type} [DecidableEq α] (l : List (α × β)) (a : α) (b : β) :
    lookupA (setA l a b) a = some b := by
  induction l with
  | nil => simp [setA, lookupA]
  | cons q rest ih =>
    obtain ⟨k, v⟩ := q
    by_cases hk : k = a
    · simp [setA, hk, lookupA]
    · simp [setA, hk, lookupA, ih]

lemma lookupA_setA_ne {α β : Type} [DecidableEq α] (l : List (α × β)) (a x : α) (b : β)
    (h : x ≠ a) : lookupA (setA l a b) x = lookupA l x := by
  induction l with
  | nil => simp [setA, lookupA, Ne.symm h]
  | cons q rest ih =>
    obtain ⟨k, v⟩ := q
    by_cases hk : k = a
    · subst hk
      simp [setA, lookupA, Ne.symm h]
    · simp [setA, hk, lookupA, ih]

lemma lookupA_eraseA_ne {α β : Type} [DecidableEq α] (l : List (α × β)) (a x : α)
    (h : x ≠ a) : lookupA (eraseA l a) x = lookupA l x := by
  induction l with
  | nil => simp [eraseA]
  | cons q rest ih =>
    obtain ⟨k, v⟩ := q
    by_cases hk : k = a
    · subst hk
      simp [eraseA, lookupA, Ne.symm h]
    · simp [eraseA, hk, lookupA, ih]

lemma lookupA_eq_none_of_not_mem {α β : Type} [DecidableEq α] {l : List (α × β)} {a : α}
    (h : a ∉ l.map Prod.fst) : lookupA l a = none := by
  induction l with
  | nil => rfl
  | cons q rest ih =>
    obtain ⟨k, v⟩ := q
    simp only [List.map_cons, List.mem_cons] at h
    push_neg at h
    simp [lookupA, Ne.symm h.1, ih h.2]

lemma lookupA_eraseA_self {α β : Type} [DecidableEq α] {l : List (α × β)} {a : α}
    (hn : (l.map Prod.fst).Nodup) : lookupA (eraseA l a) a = none := by
  induction l with
  | nil => rfl
  | cons q rest ih =>
    obtain ⟨k, v⟩ := q
    simp only [List.map_cons, List.nodup_cons] at hn
    by_cases hk : k = a
    · subst hk
      simp only [eraseA, if_pos rfl]
      exact lookupA_eq_none_of_not_mem hn.1
    · simp [eraseA, hk, lookupA, ih hn.2]

lemma lookupA_mem {α β : Type} [DecidableEq α] {l : List (α × β)} {p : α × β}
    (hn : (l.map Prod.fst).Nodup) (hp : p ∈ l) : lookupA l p.1 = some p.2 := by
  induction l with
  | nil => cases hp
  | cons q rest ih =>
    obtain ⟨k, v⟩ := q
    simp only [List.map_cons, List.nodup_cons] at hn
    rcases List.mem_cons.mp hp with h | h
    · rw [h]
      simp [lookupA]
    · have h1 : k ≠ p.1 := by
        intro hkp
        exact hn.1 (hkp ▸ List.mem_map_of_mem Prod.fst h)
      simp [lookupA, h1, ih hn.2 h]

lemma mem_setA_nodup {α β : Type} [DecidableEq α] {l : List (α × β)} {a : α} {b : β}
    {p : α × β} (hn : (l.map Prod.fst).Nodup) (h : p ∈ setA l a b) :
    p = (a, b) ∨ (p.1 ≠ a ∧ p ∈ l) := by
  induction l with
  | nil =>
    simp only [setA, List.mem_singleton] at h
    exact Or.inl h
  | cons q rest ih =>
    obtain ⟨k, v⟩ := q
    simp only [List.map_cons, List.nodup_cons] at hn
    by_cases hk : k = a
    · subst hk
      simp only [setA, if_pos rfl] at h
      rcases List.mem_cons.mp h with h | h
      · exact Or.inl h
      · refine Or.inr ⟨?_, List.mem_cons_of_mem _ h⟩
        intro hpk
        exact hn.1 (hpk ▸ List.mem_map_of_mem Prod.fst h)
    · simp only [setA, if_neg hk] at h
      rcases List.mem_cons.mp h with h | h
      · refine Or.inr ⟨?_, by rw [h]; exact List.mem_cons_self _ _⟩
        rw [h]
        exact hk
      · rcases ih hn.2 h with h1 | ⟨h1, h2⟩
        · exact Or.inl h1
        · exact Or.inr ⟨h1, List.mem_cons_of_mem _ h2⟩

lemma mem_keys_setA {α β : Type} [DecidableEq α] {l : List (α × β)} {a x : α} {b : β}
    (h : x ∈ (setA l a b).map Prod.fst) : x = a ∨ x ∈ l.map Prod.fst := by
  induction l with
  | nil =>
    simp only [setA, List.map_cons, List.map_nil, List.mem_singleton] at h
    exact Or.inl h
  | cons q rest ih =>
    obtain ⟨k, v⟩ := q
    by_cases hk : k = a
    · simp only [setA, if_pos hk, List.map_cons, List.mem_cons] at h
      rcases h with h | h
      · exact Or.inl h
      · exact Or.inr (by simp [h])
    · simp only [setA, if_neg hk, List.map_cons, List.mem_cons] at h
      rcases h with h | h
      · exact Or.inr (by simp [h])
      · rcases ih h with h1 | h1
        · exact Or.inl h1
        · exact Or.inr (by simp [h1])

lemma setA_keys_nodup {α β : Type} [DecidableEq α] {l : List (α × β)} (a : α) (b : β)
    (hn : (l.map Prod.fst).Nodup) : ((setA l a b).map Prod.fst).Nodup := by
  induction l with
  | nil => simp [setA]
  | cons q rest ih =>
    obtain ⟨k, v⟩ := q
    simp only [List.map_cons, List.nodup_cons] at hn
    by_cases hk : k = a
    · subst hk
      have hset : setA ((k, v) :: rest) k b = (k, b) :: rest := by simp [setA]
      rw [hset]
      simp only [List.map_cons, List.nodup_cons]
      exact ⟨hn.1, hn.2⟩
    · simp only [setA, if_neg hk, List.map_cons, List.nodup_cons]
      refine ⟨?_, ih hn.2⟩
      intro hmem
      rcases mem_keys_setA hmem with h | h
      · exact hk h
      · exact hn.1 h

lemma eraseA_keys_sublist {α β : Type} [DecidableEq α] (l : List (α × β)) (a : α) :
    ((eraseA l a).map Prod.fst).Sublist (l.map Prod.fst) := by
  induction l with
  | nil => simp [eraseA]
  | cons q rest ih =>
    obtain ⟨k, v⟩ := q
    by_cases hk : k = a
    · simp only [eraseA, if_pos hk, List.map_cons]
      exact List.sublist_cons_self _ _
    · simp only [eraseA, if_neg hk, List.map_cons]
      exact List.Sublist.cons₂ _ ih

lemma eraseA_keys_nodup {α β : Type} [DecidableEq α] {l : List (α × β)} (a : α)
    (hn : (l.map Prod.fst).Nodup) : ((eraseA l a).map Prod.fst).Nodup :=
  List.Nodup.sublist (eraseA_keys_sublist l a) hn

/-! ## Registry-invariant helper lemmas -/

lemma goodState_register (t : ServerState) (ip : String) (w : Nat)
    (hr : (t.clientsByIp.map Prod.fst).Nodup)
    (hs : (t.socks.map Prod.fst).Nodup)
    (hA : ∀ p ∈ t.socks, p.2.readyState ≤ 1 →
        p.2.clientIp ≠ ip ∧ lookupA t.clientsByIp p.2.clientIp = some p.1) :
    goodState { t with clientsByIp := setA t.clientsByIp ip w,
                       socks := setA t.socks w { clientIp := ip, readyState := 1 } } := by
  refine ⟨setA_keys_nodup ip w hr, setA_keys_nodup w _ hs, ?_⟩
  intro p hp hlive
  rcases mem_setA_nodup hs hp with h | ⟨hne, hmem⟩
  · rw [h]
    exact lookupA_setA_self t.clientsByIp ip w
  · obtain ⟨hnip, hlook⟩ := hA p hmem hlive
    rw [lookupA_setA_ne t.clientsByIp ip p.2.clientIp w hnip]
    exact hlook

lemma closeStale_spec (s : ServerState) (ip : String) (hg : goodState s) :
    (closeStale s ip).activeRokuIp = s.activeRokuIp ∧
    (closeStale s ip).clientsByIp = s.clientsByIp ∧
    ((closeStale s ip).socks.map Prod.fst).Nodup ∧
    (∀ p ∈ (closeStale s ip).socks, p.2.readyState ≤ 1 →
        p.2.clientIp ≠ ip ∧ lookupA s.clientsByIp p.2.clientIp = some p.1) := by
  obtain ⟨hr, hs, hinv⟩ := hg
  unfold closeStale
  split
  · rename_i w0 hreg
    split
    · rename_i info hso
      split
      · rename_i hlive0
        refine ⟨rfl, rfl, setA_keys_nodup w0 _ hs, ?_⟩
        intro p hp hlive
        rcases mem_setA_nodup hs hp with h | ⟨hne, hmem⟩
        · rw [h] at hlive
          exact absurd hlive (by norm_num)
        · have hl := hinv p hmem hlive
          refine ⟨?_, hl⟩
          intro he
          rw [he, hreg] at hl
          exact hne (Option.some.inj hl).symm
      · rename_i hlive0
        refine ⟨rfl, rfl, hs, ?_⟩
        intro p hp hlive
        have hl := hinv p hp hlive
        refine ⟨?_, hl⟩
        intro he
        rw [he, hreg] at hl
        have hp1 : p.1 = w0 := (Option.some.inj hl).symm
        have hme := lookupA_mem hs hp
        rw [hp1, hso] at hme
        have hinfo : info = p.2 := Option.some.inj hme
        rw [hinfo] at hlive0
        exact hlive0 hlive
    · rename_i hso
      refine ⟨rfl, rfl, hs, ?_⟩
      intro p hp hlive
      have hl := hinv p hp hlive
      refine ⟨?_, hl⟩
      intro he
      rw [he, hreg] at hl
      have hp1 : p.1 = w0 := (Option.some.inj hl).symm
      have hme := lookupA_mem hs hp
      rw [hp1, hso] at hme
      exact Option.noConfusion hme
  · rename_i hreg
    refine ⟨rfl, rfl, hs, ?_⟩
    intro p hp hlive
    have hl := hinv p hp hlive
    refine ⟨?_, hl⟩
    intro he
    rw [he, hreg] at hl
    exact Option.noConfusion hl

lemma goodState_accept (s : ServerState) (ip : String) (w : Nat) (now : Nat)
    (hg : goodState s) : goodState (acceptConnection s ip w now).1 := by
  obtain ⟨hip, hregeq, hnodup, hA⟩ := closeStale_spec s ip hg
  have hr1 : ((closeStale s ip).clientsByIp.map Prod.fst).Nodup := by
    rw [hregeq]
    exact hg.1
  have hkey : (acceptConnection s ip w now).1 =
      { closeStale s ip with
          clientsByIp := setA (closeStale s ip).clientsByIp ip w,
          socks := setA (closeStale s ip).socks w { clientIp := ip, readyState := 1 } } := rfl
  rw [hkey]
  refine goodState_register (closeStale s ip) ip w hr1 hnodup ?_
  intro p hp hlive
  obtain ⟨h1, h2⟩ := hA p hp hlive
  refine ⟨h1, ?_⟩
  rw [hregeq]
  exact h2

lemma goodState_close (s : ServerState) (ip : String) (w : Nat)
    (hg : goodState s) : goodState (handleClose s ip w) := by
  obtain ⟨hr, hs, hinv⟩ := hg
  unfold handleClose
  cases hso : lookupA s.socks w with
  | some info =>
    by_cases hmatch : lookupA s.clientsByIp ip = some w
    · rw [if_pos hmatch]
      refine ⟨eraseA_keys_nodup ip hr, setA_keys_nodup w _ hs, ?_⟩
      intro p hp hlive
      rcases mem_setA_nodup hs hp with h | ⟨hne, hmem⟩
      · rw [h] at hlive
        exact absurd hlive (by norm_num)
      · have hl := hinv p hmem hlive
        have hnip : p.2.clientIp ≠ ip := by
          intro he
          rw [he, hmatch] at hl
          exact hne (Option.some.inj hl).symm
        rw [lookupA_eraseA_ne s.clientsByIp ip p.2.clientIp hnip]
        exact hl
    · rw [if_neg hmatch]
      refine ⟨hr, setA_keys_nodup w _ hs, ?_⟩
      intro p hp hlive
      rcases mem_setA_nodup hs hp with h | ⟨hne, hmem⟩
      · rw [h] at hlive
        exact absurd hlive (by norm_num)
      · exact hinv p hmem hlive
  | none =>
    by_cases hmatch : lookupA s.clientsByIp ip = some w
    · rw [if_pos hmatch]
      refine ⟨eraseA_keys_nodup ip hr, hs, ?_⟩
      intro p hp hlive
      have hl := hinv p hp hlive
      have hnip : p.2.clientIp ≠ ip := by
        intro he
        rw [he, hmatch] at hl
        have hp1 : p.1 = w := (Option.some.inj hl).symm
        have hme := lookupA_mem hs hp
        rw [hp1, hso] at hme
        exact Option.noConfusion hme
      rw [lookupA_eraseA_ne s.clientsByIp ip p.2.clientIp hnip]
      exact hl
    · rw [if_neg hmatch]
      exact ⟨hr, hs, hinv⟩

lemma goodState_run (s0 : ServerState) (evs : List ServerEvt)
    (hg : goodState s0) : goodState (runEvts s0 evs) := by
  induction evs generalizing s0 with
  | nil => exact hg
  | cons e rest ih =>
    cases e with
    | accept ip w => exact ih _ (goodState_accept s0 ip w 0 hg)
    | closeEvt ip w => exact ih _ (goodState_close s0 ip w hg)

/-! ## Message-handler helper lemmas -/

lemma hm_invalid_drop (s : ServerState) (msg : Msg) (net : NetOutcome)
    (hns : ¬ (msg.type? = some "set-roku-ip" ∧ jsTruthy msg.ip = true))
    (hbad : actionOk msg.action = false ∨ keyOk msg.key = false) :
    handleMessage s (some msg) net = (s, []) := by
  simp only [handleMessage]
  rw [if_neg hns]
  rcases hbad with h | h
  · rw [if_pos h]
  · by_cases ha : actionOk msg.action = false
    · rw [if_pos ha]
    · rw [if_neg ha, if_pos h]

lemma hm_noip (s : ServerState) (msg : Msg) (net : NetOutcome)
    (hns : ¬ (msg.type? = some "set-roku-ip" ∧ jsTruthy msg.ip = true))
    (ha : actionOk msg.action = true) (hk : keyOk msg.key = true)
    (hip : s.activeRokuIp = "") :
    handleMessage s (some msg) net =
      (s, [Effect.send (OutMsg.errorMsg "Roku unreachable: No Roku IP configured")]) := by
  simp only [handleMessage]
  rw [if_neg hns, if_neg (by simp [ha]), if_neg (by simp [hk])]
  rw [hip]
  simp [sendToRoku]

lemma hm_status (s : ServerState) (msg : Msg) (net : NetOutcome) (n : Nat)
    (hns : ¬ (msg.type? = some "set-roku-ip" ∧ jsTruthy msg.ip = true))
    (ha : actionOk msg.action = true) (hk : keyOk msg.key = true)
    (hip : s.activeRokuIp ≠ "") (hnet : net = NetOutcome.status n) :
    handleMessage s (some msg) net =
      (s, [Effect.request
            { hostname := s.activeRokuIp, port := 8060,
              path := "/" ++ msg.action.getD "" ++ "/" ++ msg.key.getD "",
              method := "POST", timeoutMs := 500, destroyed := false }]) := by
  subst hnet
  simp only [handleMessage]
  rw [if_neg hns, if_neg (by simp [ha]), if_neg (by simp [hk])]
  simp [sendToRoku, hip]

lemma hm_timeout (s : ServerState) (msg : Msg) (net : NetOutcome)
    (hns : ¬ (msg.type? = some "set-roku-ip" ∧ jsTruthy msg.ip = true))
    (ha : actionOk msg.action = true) (hk : keyOk msg.key = true)
    (hip : s.activeRokuIp ≠ "") (hnet : net = NetOutcome.timedOut) :
    handleMessage s (some msg) net =
      (s, [Effect.request
            { hostname := s.activeRokuIp, port := 8060,
              path := "/" ++ msg.action.getD "" ++ "/" ++ msg.key.getD "",
              method := "POST", timeoutMs := 500, destroyed := true },
           Effect.send (OutMsg.errorMsg "Roku unreachable: Roku request timed out")]) := by
  subst hnet
  simp only [handleMessage]
  rw [if_neg hns, if_neg (by simp [ha]), if_neg (by simp [hk])]
  simp [sendToRoku, hip]

lemma hm_state_unchanged (s : ServerState) (msg : Msg) (net : NetOutcome)
    (hns : ¬ (msg.type? = some "set-roku-ip" ∧ jsTruthy msg.ip = true)) :
    (handleMessage s (some msg) net).1 = s := by
  simp only [handleMessage]
  rw [if_neg hns]
  by_cases ha : actionOk msg.action = false
  · rw [if_pos ha]
  · rw [if_neg ha]
    by_cases hk : keyOk msg.key = false
    · rw [if_pos hk]
    · rw [if_neg hk]
      cases hrr : (sendToRoku s.activeRokuIp (msg.action.getD "") (msg.key.getD "") net).2 <;>
        simp [hrr]

/-! ## Backoff lemmas -/

lemma bumpDelay_min (a : ℚ) :
    bumpDelay (min a MAX_RECONNECT_DELAY) = min (a * RECONNECT_BACKOFF) MAX_RECONNECT_DELAY := by
  unfold bumpDelay RECONNECT_BACKOFF MAX_RECONNECT_DELAY
  rcases le_total a 5000 with h | h
  · rw [min_eq_left h]
  · rw [min_eq_right h]
    rw [min_eq_right (by norm_num : (5000:ℚ) ≤ 5000 * (3 / 2))]
    rw [min_eq_right (by nlinarith : (5000:ℚ) ≤ a * (3 / 2))]

lemma attemptState_delay (k : Nat) :
    (attemptState k).delay =
      min (INITIAL_RECONNECT_DELAY * RECONNECT_BACKOFF ^ k) MAX_RECONNECT_DELAY := by
  induction k with
  | zero =>
    rw [pow_zero, mul_one]
    rw [min_eq_left (by norm_num [INITIAL_RECONNECT_DELAY, MAX_RECONNECT_DELAY])]
    rfl
  | succ n ih =>
    have hstep : (attemptState (n + 1)).delay = bumpDelay (attemptState n).delay := rfl
    rw [hstep, ih, bumpDelay_min, mul_assoc, ← pow_succ]

/-! ## Claim theorems -/

/-- C1: an inbound message that parses as JSON but whose action or key
field is outside the valid enumerations (and which is not a set-target
control message) causes no downstream HTTP request, no reply on the
originating connection, and leaves the server state (target address and
registry) unchanged. -/
theorem c1_invalid_command_silent (s : ServerState) (msg : Msg) (net : NetOutcome)
    (hns : ¬ (msg.type? = some "set-roku-ip" ∧ jsTruthy msg.ip = true))
    (hbad : actionOk msg.action = false ∨ keyOk msg.key = false) :
    handleMessage s (some msg) net = (s, []) :=
  hm_invalid_drop s msg net hns hbad

/-- C1 witness: a concrete message with an invalid action is silently
dropped with no effects. -/
theorem c1_invalid_command_silent_witness :
    actionOk (some "jump") = false ∧
    handleMessage sWithIp (some ⟨none, none, some "jump", some "Left"⟩)
        (NetOutcome.status 200) = (sWithIp, []) :=
  ⟨by decide,
   c1_invalid_command_silent sWithIp ⟨none, none, some "jump", some "Left"⟩
     (NetOutcome.status 200) (by decide) (Or.inl (by decide))⟩

/-- C3: a validated command forwarded while no target address is
configured fails immediately with no HTTP request, and the originating
connection receives exactly the error event with message
"Roku unreachable: No Roku IP configured". -/
theorem c3_no_target_error (s : ServerState) (msg : Msg) (net : NetOutcome)
    (hns : ¬ (msg.type? = some "set-roku-ip" ∧ jsTruthy msg.ip = true))
    (ha : actionOk msg.action = true) (hk : keyOk msg.key = true)
    (hip : s.activeRokuIp = "") :
    handleMessage s (some msg) net =
      (s, [Effect.send (OutMsg.errorMsg "Roku unreachable: No Roku IP configured")]) :=
  hm_noip s msg net hns ha hk hip

/-- C3 witness: a concrete valid command against the no-target state
produces exactly the configured-error event and no request. -/
theorem c3_no_target_error_witness :
    sNoIp.activeRokuIp = "" ∧
    handleMessage sNoIp (some ⟨none, none, some "keydown", some "Left"⟩)
        (NetOutcome.status 200) =
      (sNoIp, [Effect.send (OutMsg.errorMsg "Roku unreachable: No Roku IP configured")]) :=
  ⟨rfl,
   c3_no_target_error sNoIp ⟨none, none, some "keydown", some "Left"⟩
     (NetOutcome.status 200) (by decide) (by decide) (by decide) rfl⟩

/-- C6: every downstream forward is issued with a 500ms timeout; on
timeout the in-flight request is destroyed and the originating
connection receives an error event whose message contains "timed out". -/
theorem c6_timeout_destroy :
    (∀ (ip a k : String) (net : NetOutcome) (req : HttpReq),
        (sendToRoku ip a k net).1 = some req → req.timeoutMs = 500) ∧
    (∀ (s : ServerState) (msg : Msg) (net : NetOutcome),
        ¬ (msg.type? = some "set-roku-ip" ∧ jsTruthy msg.ip = true) →
        actionOk msg.action = true → keyOk msg.key = true →
        s.activeRokuIp ≠ "" → net = NetOutcome.timedOut →
        handleMessage s (some msg) net =
          (s, [Effect.request
                { hostname := s.activeRokuIp, port := 8060,
                  path := "/" ++ msg.action.getD "" ++ "/" ++ msg.key.getD "",
                  method := "POST", timeoutMs := 500, destroyed := true },
               Effect.send (OutMsg.errorMsg "Roku unreachable: Roku request timed out")])) ∧
    containsSub "timed out" "Roku unreachable: Roku request timed out" := by
  refine ⟨?_, ?_, ⟨"Roku unreachable: Roku request ", "", by decide⟩⟩
  · intro ip a k net req h
    by_cases hip : ip = ""
    · simp [sendToRoku, hip] at h
    · cases net <;> simp [sendToRoku, hip] at h <;> rw [← h]
  · intro s msg net hns ha hk hip hnet
    exact hm_timeout s msg net hns ha hk hip hnet

/-- C6 witness: a concrete timed-out forward carries a 500ms timeout,
is destroyed, and reports a message containing "timed out". -/
theorem c6_timeout_destroy_witness :
    (sendToRoku "192.168.1.42" "keydown" "Left" NetOutcome.timedOut).1 =
      some { hostname := "192.168.1.42", port := 8060, path := "/keydown/Left",
             method := "POST", timeoutMs := 500, destroyed := true } ∧
    ({ hostname := "192.168.1.42", port := 8060, path := "/keydown/Left",
       method := "POST", timeoutMs := 500, destroyed := true } : HttpReq).timeoutMs = 500 ∧
    handleMessage sWithIp (some ⟨none, none, some "keydown", some "Left"⟩)
        NetOutcome.timedOut =
      (sWithIp, [Effect.request
                  { hostname := "192.168.1.42", port := 8060, path := "/keydown/Left",
                    method := "POST", timeoutMs := 500, destroyed := true },
                 Effect.send (OutMsg.errorMsg "Roku unreachable: Roku request timed out")]) :=
  ⟨by decide,
   c6_timeout_destroy.1 "192.168.1.42" "keydown" "Left" NetOutcome.timedOut
     { hostname := "192.168.1.42", port := 8060, path := "/keydown/Left",
       method := "POST", timeoutMs := 500, destroyed := true } (by decide),
   c6_timeout_destroy.2.1 sWithIp ⟨none, none, some "keydown", some "Left"⟩
     NetOutcome.timedOut (by decide) (by decide) (by decide) (by decide) rfl⟩

/-- C7: when the downstream device answers with any HTTP status code,
the forward completes: exactly one request is issued, no error event is
sent back, and no retry happens, uniformly in the status code. -/
theorem c7_any_status_completes (s : ServerState) (msg : Msg) (net : NetOutcome) (n : Nat)
    (hns : ¬ (msg.type? = some "set-roku-ip" ∧ jsTruthy msg.ip = true))
    (ha : actionOk msg.action = true) (hk : keyOk msg.key = true)
    (hip : s.activeRokuIp ≠ "") (hnet : net = NetOutcome.status n) :
    handleMessage s (some msg) net =
      (s, [Effect.request
            { hostname := s.activeRokuIp, port := 8060,
              path := "/" ++ msg.action.getD "" ++ "/" ++ msg.key.getD "",
              method := "POST", timeoutMs := 500, destroyed := false }]) :=
  hm_status s msg net n hns ha hk hip hnet

/-- C7 witness: a 503 response is treated as a completed attempt with
no error event and no second request. -/
theorem c7_any_status_completes_witness :
    handleMessage sWithIp (some ⟨none, none, some "keyup", some "Play"⟩)
        (NetOutcome.status 503) =
      (sWithIp, [Effect.request
                  { hostname := "192.168.1.42", port := 8060, path := "/keyup/Play",
                    method := "POST", timeoutMs := 500, destroyed := false }]) :=
  c7_any_status_completes sWithIp ⟨none, none, some "keyup", some "Play"⟩
    (NetOutcome.status 503) 503 (by decide) (by decide) (by decide) (by decide) rfl

/-- C8 counterexample: the action strings accepted by the relay are the
unhyphenated "keydown"/"keyup"/"keypress", not the claimed
"key-down"/"key-up"/"key-press": "keydown" lies outside the claimed set
yet is forwarded rather than rejected, while "key-down" lies inside the
claimed set yet is rejected. -/
theorem c8_hyphen_enumeration_false :
    "keydown" ∉ (["key-down", "key-up", "key-press"] : List String) ∧
    handleMessage sWithIp (some ⟨none, none, some "keydown", some "Left"⟩)
        (NetOutcome.status 200) =
      (sWithIp, [Effect.request
                  { hostname := "192.168.1.42", port := 8060, path := "/keydown/Left",
                    method := "POST", timeoutMs := 500, destroyed := false }]) ∧
    handleMessage sWithIp (some ⟨none, none, some "key-down", some "Left"⟩)
        (NetOutcome.status 200) = (sWithIp, []) := by
  refine ⟨by decide, by decide, by decide⟩

/-- C8 (amended): the action strings the relay accepts are exactly
keydown, keyup and keypress; the key strings are exactly the twelve
navigation/media symbols Left, Right, Up, Down, Select, Back, Home,
Rev, Fwd, Play, InstantReplay, Info; every message whose action or key
lies outside these sets is rejected with no effect. -/
theorem c8_enumerations :
    (∀ a : String, a ∈ VALID_ACTIONS ↔ a = "keydown" ∨ a = "keyup" ∨ a = "keypress") ∧
    (∀ k : String, k ∈ VALID_KEYS ↔
        k = "Left" ∨ k = "Right" ∨ k = "Up" ∨ k = "Down" ∨ k = "Select" ∨
        k = "Back" ∨ k = "Home" ∨ k = "Rev" ∨ k = "Fwd" ∨ k = "Play" ∨
        k = "InstantReplay" ∨ k = "Info") ∧
    (∀ (s : ServerState) (msg : Msg) (net : NetOutcome),
        ¬ (msg.type? = some "set-roku-ip" ∧ jsTruthy msg.ip = true) →
        actionOk msg.action = false ∨ keyOk msg.key = false →
        handleMessage s (some msg) net = (s, [])) := by
  refine ⟨?_, ?_, fun s msg net hns hbad => hm_invalid_drop s msg net hns hbad⟩
  · intro a
    simp [VALID_ACTIONS]
  · intro k
    simp [VALID_KEYS]

/-- C8 witness: "keyup" is in the accepted action set, and a concrete
out-of-enumeration action is rejected with no effect. -/
theorem c8_enumerations_witness :
    "keyup" ∈ VALID_ACTIONS ∧
    handleMessage sWithIp (some ⟨none, none, some "Jump", some "Left"⟩)
        (NetOutcome.status 200) = (sWithIp, []) :=
  ⟨(c8_enumerations.1 "keyup").mpr (Or.inr (Or.inl rfl)),
   c8_enumerations.2.2 sWithIp ⟨none, none, some "Jump", some "Left"⟩
     (NetOutcome.status 200) (by decide) (Or.inl (by decide))⟩

/-- C9 counterexample: a message with type "set-roku-ip" and empty
(falsy) ip that also carries a valid action and key is not silently
dropped: it is treated as a command, and on forward failure the server
does send a response (an error event) on the connection. -/
theorem c9_falsy_ip_silent_false :
    ((⟨some "set-roku-ip", some "", some "keydown", some "Left"⟩ : Msg).type? =
        some "set-roku-ip" ∧
      jsTruthy (⟨some "set-roku-ip", some "", some "keydown", some "Left"⟩ : Msg).ip =
        false) ∧
    handleMessage sWithIp
        (some ⟨some "set-roku-ip", some "", some "keydown", some "Left"⟩)
        NetOutcome.timedOut =
      (sWithIp, [Effect.request
                  { hostname := "192.168.1.42", port := 8060, path := "/keydown/Left",
                    method := "POST", timeoutMs := 500, destroyed := true },
                 Effect.send (OutMsg.errorMsg "Roku unreachable: Roku request timed out")]) := by
  refine ⟨by decide, by decide⟩

/-- C9 (amended): for every inbound message with type "set-roku-ip"
whose ip field is missing or empty (falsy), the target address and the
whole server state are unchanged, and the message falls through to
command validation: when its action or key does not validate (in
particular when those fields are absent) it is silently dropped with no
response; only when it also carries a valid action and key is it
treated as a command. -/
theorem c9_falsy_ip_fallthrough :
    (∀ (s : ServerState) (msg : Msg) (net : NetOutcome),
        msg.type? = some "set-roku-ip" → jsTruthy msg.ip = false →
        (handleMessage s (some msg) net).1 = s) ∧
    (∀ (s : ServerState) (msg : Msg) (net : NetOutcome),
        msg.type? = some "set-roku-ip" → jsTruthy msg.ip = false →
        actionOk msg.action = false ∨ keyOk msg.key = false →
        handleMessage s (some msg) net = (s, [])) := by
  constructor
  · intro s msg net ht hf
    exact hm_state_unchanged s msg net (by simp [hf])
  · intro s msg net ht hf hbad
    exact hm_invalid_drop s msg net (by simp [hf]) hbad

/-- C9 witness: a concrete set-roku-ip message with empty ip and no
action/key fields is silently dropped with the state unchanged. -/
theorem c9_falsy_ip_fallthrough_witness :
    jsTruthy (some "") = false ∧
    handleMessage sWithIp (some ⟨some "set-roku-ip", some "", none, none⟩)
        (NetOutcome.status 200) = (sWithIp, []) :=
  ⟨by decide,
   c9_falsy_ip_fallthrough.2 sWithIp ⟨some "set-roku-ip", some "", none, none⟩
     (NetOutcome.status 200) rfl (by decide) (Or.inl (by decide))⟩

/-- C10: the client-side sendKey validates nothing: for every string
key and action, whenever the socket exists and is OPEN it serializes
exactly the pair (action, key) and transmits it; the enumeration check
happens only on the server, which drops out-of-enumeration actions. -/
theorem c10_sendkey_no_validation :
    (∀ (key action : String) (ws : ClientSock), ws.readyState = 1 →
        sendKey (some ws) key action = [{ action := action, key := key }]) ∧
    (∀ (s : ServerState) (a k : String) (net : NetOutcome), a ∉ VALID_ACTIONS →
        handleMessage s (some ⟨none, none, some a, some k⟩) net = (s, [])) := by
  constructor
  · intro key action ws h
    simp [sendKey, h]
  · intro s a k net hna
    refine hm_invalid_drop s _ net (by simp) (Or.inl ?_)
    simp [actionOk, hna]

/-- C10 witness: an arbitrary unvalidated pair is transmitted verbatim
by the client and the same action string is rejected by the server. -/
theorem c10_sendkey_no_validation_witness :
    sendKey (some ⟨1⟩) "AnyKeyString" "not-an-action" =
      [{ action := "not-an-action", key := "AnyKeyString" }] ∧
    handleMessage sWithIp (some ⟨none, none, some "not-an-action", some "Left"⟩)
        (NetOutcome.status 200) = (sWithIp, []) :=
  ⟨c10_sendkey_no_validation.1 "AnyKeyString" "not-an-action" ⟨1⟩ rfl,
   c10_sendkey_no_validation.2 sWithIp "not-an-action" "Left"
     (NetOutcome.status 200) (by decide)⟩

/-- C4: after N consecutive connection failures with no intervening
success or manual reconnect, the delay used to schedule the Nth
reconnect attempt equals min(floor × factor^(N-1), ceiling) with
floor = INITIAL_RECONNECT_DELAY, factor = RECONNECT_BACKOFF and
ceiling = MAX_RECONNECT_DELAY; and a successful open resets the delay
to the floor. -/
theorem c4_backoff_formula :
    (∀ n : Nat, 1 ≤ n →
        nthAttemptDelay n =
          min (INITIAL_RECONNECT_DELAY * RECONNECT_BACKOFF ^ (n - 1)) MAX_RECONNECT_DELAY) ∧
    (∀ s : SessState, (sessStep s SessionEvt.opened).delay = INITIAL_RECONNECT_DELAY) := by
  constructor
  · intro n _
    exact attemptState_delay (n - 1)
  · intro s
    rfl

/-- C4 witness: at N = 7 the formula hits the ceiling, and an open
event from an arbitrary delay resets to the floor. -/
theorem c4_backoff_formula_witness :
    (1 ≤ 7 ∧ nthAttemptDelay 7 =
      min (INITIAL_RECONNECT_DELAY * RECONNECT_BACKOFF ^ (7 - 1)) MAX_RECONNECT_DELAY) ∧
    (sessStep { delay := 4000 } SessionEvt.opened).delay = INITIAL_RECONNECT_DELAY :=
  ⟨⟨by norm_num, c4_backoff_formula.1 7 (by norm_num)⟩,
   c4_backoff_formula.2 { delay := 4000 }⟩

/-- C5 counterexample: in the hook of src/src/hooks/useRokuSocket.ts,
calling connect while a connection attempt is in flight is not a no-op
(it allocates a new socket object) and the pending scheduled reconnect
timer is not cancelled. -/
theorem c5_connect_noop_false :
    connectA "ws://192.168.1.50:3002" hookAEx ≠ hookAEx ∧
    (connectA "ws://192.168.1.50:3002" hookAEx).timer = some 5 ∧
    (connectA "ws://192.168.1.50:3002" hookAEx).nextId = hookAEx.nextId + 1 := by
  refine ⟨by decide, by decide, by decide⟩

/-- C5 (amended): in the part_002 variant of the hook, calling connect
while a connection attempt is in flight (connectingRef set) is a no-op
that allocates no second socket; and every connect call that is not
short-circuited by that in-flight guard first cancels any pending
scheduled reconnect timer.  The src/src/hooks/useRokuSocket.ts variant
has neither behavior. -/
theorem c5_connect_guard :
    (∀ (url : String) (s : HookStateB), s.connectingFlag = true → connectB url s = s) ∧
    (∀ (url : String) (s : HookStateB), s.connectingFlag = true →
        (connectB url s).nextId = s.nextId) ∧
    (∀ (url : String) (s : HookStateB), s.connectingFlag = false →
        (connectB url s).timer = none) := by
  refine ⟨?_, ?_, ?_⟩
  · intro url s h
    simp [connectB, h]
  · intro url s h
    simp [connectB, h]
  · intro url s h
    cases hw : s.wsRef <;> by_cases hu : url = "" <;> simp [connectB, h, hw, hu]

/-- C5 witness: with an attempt in flight connect is the identity, and
with no attempt in flight connect clears the pending timer. -/
theorem c5_connect_guard_witness :
    connectB "ws://192.168.1.50:3002" hookBEx = hookBEx ∧
    (connectB "ws://192.168.1.50:3002" hookBEx2).timer = none :=
  ⟨c5_connect_guard.1 "ws://192.168.1.50:3002" hookBEx rfl,
   c5_connect_guard.2.2 "ws://192.168.1.50:3002" hookBEx2 rfl⟩

/-- C2: the registry keeps at most one live connection per originating
identity: the state invariant is preserved by every sequence of
accept/close events; two live sockets with the same client IP coincide;
accepting registers exactly the new socket and closes a live prior one;
a close event removes the registry entry when it still points at the
closing socket and leaves the registry unchanged otherwise. -/
theorem c2_registry_invariant :
    (∀ (s0 : ServerState) (evs : List ServerEvt),
        goodState s0 → goodState (runEvts s0 evs)) ∧
    (∀ s : ServerState, goodState s →
        ∀ p ∈ s.socks, ∀ q ∈ s.socks,
          p.2.readyState ≤ 1 → q.2.readyState ≤ 1 →
          p.2.clientIp = q.2.clientIp → p.1 = q.1) ∧
    (∀ (s : ServerState) (ip : String) (w now : Nat),
        lookupA ((acceptConnection s ip w now).1).clientsByIp ip = some w) ∧
    (∀ (s : ServerState) (ip : String) (w now w0 : Nat) (info : SockInfo),
        lookupA s.clientsByIp ip = some w0 →
        lookupA s.socks w0 = some info → info.readyState ≤ 1 → w0 ≠ w →
        lookupA ((acceptConnection s ip w now).1).socks w0 =
          some { clientIp := info.clientIp, readyState := 2 }) ∧
    (∀ (s : ServerState) (ip : String) (w : Nat),
        (s.clientsByIp.map Prod.fst).Nodup →
        lookupA s.clientsByIp ip = some w →
        lookupA (handleClose s ip w).clientsByIp ip = none) ∧
    (∀ (s : ServerState) (ip : String) (w : Nat),
        lookupA s.clientsByIp ip ≠ some w →
        (handleClose s ip w).clientsByIp = s.clientsByIp) := by
  refine ⟨goodState_run, ?_, ?_, ?_, ?_, ?_⟩
  · intro s hg p hp q hq hpl hql hcl
    have h1 := hg.2.2 p hp hpl
    have h2 := hg.2.2 q hq hql
    rw [hcl] at h1
    rw [h1] at h2
    exact Option.some.inj h2
  · intro s ip w now
    show lookupA (setA (closeStale s ip).clientsByIp ip w) ip = some w
    exact lookupA_setA_self (closeStale s ip).clientsByIp ip w
  · intro s ip w now w0 info hreg hso hlive hne
    have hcs : closeStale s ip =
        { s with socks := setA s.socks w0 { clientIp := info.clientIp, readyState := 2 } } := by
      simp [closeStale, hreg, hso, hlive]
    show lookupA (setA (closeStale s ip).socks w { clientIp := ip, readyState := 1 }) w0 =
      some { clientIp := info.clientIp, readyState := 2 }
    rw [hcs]
    rw [lookupA_setA_ne _ w w0 _ hne]
    exact lookupA_setA_self s.socks w0 _
  · intro s ip w hr hmatch
    have hcl : (handleClose s ip w).clientsByIp = eraseA s.clientsByIp ip := by
      simp [handleClose, hmatch]
    rw [hcl]
    exact lookupA_eraseA_self hr
  · intro s ip w hmatch
    simp [handleClose, hmatch]

/-- C2 witness: the invariant survives a concrete trace of two
connections from the same identity followed by both closes, and each
local property is exercised on a concrete registered state. -/
theorem c2_registry_invariant_witness :
    goodState (runEvts sWithIp evsEx) ∧
    lookupA ((acceptConnection sRegEx "A" 2 0).1).clientsByIp "A" = some 2 ∧
    lookupA ((acceptConnection sRegEx "A" 2 0).1).socks 1 =
      some { clientIp := "A", readyState := 2 } ∧
    lookupA (handleClose sRegEx "A" 1).clientsByIp "A" = none ∧
    (handleClose sRegEx "A" 7).clientsByIp = sRegEx.clientsByIp :=
  ⟨c2_registry_invariant.1 sWithIp evsEx (by decide),
   c2_registry_invariant.2.2.1 sRegEx "A" 2 0,
   c2_registry_invariant.2.2.2.1 sRegEx "A" 2 0 1 { clientIp := "A", readyState := 1 }
     (by decide) (by decide) (by decide) (by decide),
   c2_registry_invariant.2.2.2.2.1 sRegEx "A" 1 (by decide) (by decide),
   c2_registry_invariant.2.2.2.2.2 sRegEx "A" 7 (by decide)⟩

end RhythmPad
